import Mathlib

/-!
Verification of the Steem-Curation-Extension efficiency-analytics pipeline.

Shallow embedding of the relevant code:
- `src/post/votes/votes.js`: `getPostCached` (the per-key dedup post cache),
  `getHistoricCurationRewards` (window fetch), and the `EfficiencyScatter`
  chart state machine (`pushPoint`, `toggleMode`, `addStatsLines`,
  `finalize`, `_stats`, `_yValues`, `_upsertLineDataset`).
- `src/post/votes/VoterTip.js`: `VoterTip.prefetchEfficiencyData`
  (the efficiency aggregator: window fetch, per-event retry loop,
  per-event efficiency computation, running totals, point emission).

JavaScript numbers are modelled as `JNum`: an exact rational together with
the three non-finite values NaN, Infinity and -Infinity.  Arithmetic,
comparisons, `Math.round`, `Math.ceil`, `Number.isFinite`, truthiness and
`toFixed(2)` follow the ECMAScript semantics on these values (floating
point rounding of finite values is not modelled; finite arithmetic is
exact rational arithmetic).  Promises are modelled as explicit `Future`
descriptors whose settled outcome is given by a fixed `resolve` oracle
(one promise has one immutable outcome), and `await sleep(..)` is a no-op.
-/

/-- Model of a JavaScript number: NaN, +Infinity, -Infinity or a finite
(exact rational) value. -/
inductive JNum where
  | nan
  | inf
  | ninf
  | fin (q : ℚ)
deriving DecidableEq

/-- JS addition on `JNum` (ECMAScript: NaN propagates, Infinity + -Infinity = NaN). -/
def jsAdd : JNum → JNum → JNum
  | .nan, _ => .nan
  | _, .nan => .nan
  | .inf, .ninf => .nan
  | .ninf, .inf => .nan
  | .inf, _ => .inf
  | _, .inf => .inf
  | .ninf, _ => .ninf
  | _, .ninf => .ninf
  | .fin a, .fin b => .fin (a + b)

/-- JS negation on `JNum`. -/
def jsNeg : JNum → JNum
  | .nan => .nan
  | .inf => .ninf
  | .ninf => .inf
  | .fin a => .fin (-a)

/-- JS subtraction on `JNum`. -/
def jsSub (a b : JNum) : JNum := jsAdd a (jsNeg b)

/-- JS multiplication on `JNum` (Infinity * 0 = NaN). -/
def jsMul : JNum → JNum → JNum
  | .nan, _ => .nan
  | _, .nan => .nan
  | .inf, .inf => .inf
  | .inf, .ninf => .ninf
  | .ninf, .inf => .ninf
  | .ninf, .ninf => .inf
  | .inf, .fin b => if 0 < b then .inf else if b < 0 then .ninf else .nan
  | .fin a, .inf => if 0 < a then .inf else if a < 0 then .ninf else .nan
  | .ninf, .fin b => if 0 < b then .ninf else if b < 0 then .inf else .nan
  | .fin a, .ninf => if 0 < a then .ninf else if a < 0 then .inf else .nan
  | .fin a, .fin b => .fin (a * b)

/-- JS division on `JNum` (x/0 = ±Infinity for x ≠ 0, 0/0 = NaN,
Infinity/Infinity = NaN, finite/Infinity = 0; signed zeros collapsed to 0). -/
def jsDiv : JNum → JNum → JNum
  | .nan, _ => .nan
  | _, .nan => .nan
  | .inf, .inf => .nan
  | .inf, .ninf => .nan
  | .ninf, .inf => .nan
  | .ninf, .ninf => .nan
  | .inf, .fin b => if b < 0 then .ninf else .inf
  | .ninf, .fin b => if b < 0 then .inf else .ninf
  | .fin _, .inf => .fin 0
  | .fin _, .ninf => .fin 0
  | .fin a, .fin b =>
      if b = 0 then (if 0 < a then .inf else if a < 0 then .ninf else .nan)
      else .fin (a / b)

/-- JS `<` comparison on `JNum` (false whenever NaN is involved). -/
def jsLt : JNum → JNum → Bool
  | .nan, _ => false
  | _, .nan => false
  | .ninf, .ninf => false
  | .inf, .inf => false
  | .ninf, _ => true
  | _, .inf => true
  | .inf, _ => false
  | _, .ninf => false
  | .fin a, .fin b => decide (a < b)

/-- JS `<=` comparison on `JNum` (false whenever NaN is involved). -/
def jsLe : JNum → JNum → Bool
  | .nan, _ => false
  | _, .nan => false
  | .ninf, _ => true
  | _, .inf => true
  | .inf, _ => false
  | _, .ninf => false
  | .fin a, .fin b => decide (a ≤ b)

/-- JS `Math.round`: nearest integer, ties toward +Infinity; identity on
non-finite values.  Mathlib's `round` on `ℚ` is `⌊q + 1/2⌋`, which is
exactly the ECMAScript rule. -/
def jsRound : JNum → JNum
  | .fin q => .fin ((round q : ℤ) : ℚ)
  | x => x

/-- JS `Math.ceil`; identity on non-finite values. -/
def jsCeil : JNum → JNum
  | .fin q => .fin ((⌈q⌉ : ℤ) : ℚ)
  | x => x

/-- JS `Math.max` of two values (NaN propagates). -/
def jsMax : JNum → JNum → JNum
  | .nan, _ => .nan
  | _, .nan => .nan
  | a, b => if jsLt a b then b else a

/-- JS `Number.isFinite`. -/
def isFinite : JNum → Bool
  | .fin _ => true
  | _ => false

/-- JS truthiness of a number: NaN and 0 are falsy (and ±Infinity truthy). -/
def jsFalsy : JNum → Bool
  | .nan => true
  | .fin q => decide (q = 0)
  | _ => false

/-- Embedding of the JS idiom `v || 0` on numbers: falsy values become 0. -/
def jsOr0 (v : JNum) : JNum := if jsFalsy v then .fin 0 else v

/-- Embedding of `Number(x.toFixed(2))`: round to two decimals (ECMAScript
`toFixed` picks the larger candidate on ties); identity on non-finite
values (`Number("NaN") = NaN`, `Number("Infinity") = Infinity`). -/
def jsToFixed2 : JNum → JNum
  | .fin q => .fin (((round (100 * q) : ℤ) : ℚ) / 100)
  | x => x

/-- The finite rational carried by a `JNum`, if any. -/
def JNum.toFinQ : JNum → Option ℚ
  | .fin q => some q
  | _ => none

/-! ## Data model (spec.md section 3, from the source) -/

/-- A vote from `post.details.active_votes` (the fields the pipeline reads). -/
structure Vote where
  rshares : JNum
  percent : JNum
deriving DecidableEq

/-- The resolved historical post snapshot (`histPost` in
`VoterTip.prefetchEfficiencyData`): author plus the `details` fields the
pipeline reads.  The JS nullish chains
`details.total_vests ?? details.totalVests ?? 0` under `Number(..)` are
modelled by the field value itself. -/
structure PostDetails where
  author : String
  total_vests : JNum
  total_rshares : JNum
  total_payout_value : JNum
deriving DecidableEq

/-- One historical reward row, already projected through the source's
`cols` index mapping (`time`, `author`, `permlink`, `vests`). -/
structure RewardRow where
  timeSec : JNum
  author : String
  permlink : String
  vests : JNum
deriving DecidableEq

/-- The window-fetch result (`data.result` of the rewards API). -/
structure FetchResult where
  rows : List RewardRow
deriving DecidableEq

/-- A transport failure of the window fetch (non-ok HTTP response or a
thrown fetch error). -/
structure TransportError where
deriving DecidableEq

/-- A rejected per-event resolution, classified exactly as the retry loop
classifies it: whether `err?.message?.includes("503") || err?.status === 503
|| err?.code === 503` holds. -/
structure JsErr where
  is503 : Bool
deriving DecidableEq

/-- The future stored by the post cache for a key: it records which
fetch-and-build sequence (`new Post(author, permlink)`, `fetchDetails`,
`getVoteData`, `getTotalVests(time)`) was started.  Its settled outcome is
given by a `resolve` oracle; one future has one immutable outcome. -/
structure Future where
  author : String
  permlink : String
  time : JNum
deriving DecidableEq

/-- The post cache: `postCache = new Map()` keyed by `author + "/" + permlink`. -/
abbrev Cache := List (String × Future)

/-- `keyFor` from `attachVoterHoverTooltips`. -/
def keyFor (a p : String) : String := a ++ "/" ++ p

/-- `getPostCached` from `src/post/votes/votes.js` lines 10-23: on a cache
miss, start the fetch-and-build sequence (create the future, recording the
caller's `time`) and store it; on a hit, return the stored future.  The
returned cache is the (possibly extended) map. -/
def getPostCached (c : Cache) (author permlink : String) (time : JNum) :
    Future × Cache :=
  match c.lookup (keyFor author permlink) with
  | some f => (f, c)
  | none =>
      let f : Future := ⟨author, permlink, time⟩
      (f, (keyFor author permlink, f) :: c)

/-- A sequence of `getPostCached` calls (possibly from different aggregator
runs sharing the cache), returning the futures each call received. -/
def runCalls (c : Cache) : List (String × String × JNum) → List Future × Cache
  | [] => ([], c)
  | (a, p, t) :: rest =>
      let r := getPostCached c a p t
      let s := runCalls r.2 rest
      (r.1 :: s.1, s.2)

/-- The cache only accumulates: an existing binding is never overwritten
by `getPostCached`. -/
theorem getPostCached_preserves_lookup (c : Cache) (k : String) (f : Future)
    (hc : c.lookup k = some f) (a p : String) (t : JNum) :
    (getPostCached c a p t).2.lookup k = some f := by
  unfold getPostCached
  cases h : c.lookup (keyFor a p) with
  | some g => simpa using hc
  | none =>
      simp only [List.lookup]
      have hk : k ≠ keyFor a p := by
        intro he; rw [he] at hc; rw [hc] at h; cases h
      simp [beq_eq_false_iff_ne.mpr hk, hc]

/-! ## Chart state machine: `EfficiencyScatter` (votes.js lines 589-1002) -/

/-- An `EfficiencyPoint` as produced by the aggregator and pushed to the
chart (`point` object in `VoterTip.prefetchEfficiencyData`, also the shape
stored in `_rawPoints`). -/
structure EPoint where
  tsMs : JNum
  efficiency : JNum
  weightedEff : JNum
  voterRewardValue : JNum
  totalValue : JNum
  sameAuthor : Bool
deriving DecidableEq

/-- An entry of the rendered dataset `chart.data.datasets[0].data`. -/
structure DataPoint where
  x : JNum
  y : JNum
  efficiency : JNum
  weightedEff : JNum
  voterRewardValue : JNum
  totalValue : JNum
  sameAuthor : Bool
deriving DecidableEq

/-- The mutable state of an `EfficiencyScatter` instance: its own fields
(`showWeighted`, `_minPointTs`, `finalized`, `_rawPoints`, `yBaselineMin`)
together with the chart state it owns (`datasets[0].data`, the guide-line
datasets keyed by `_id`, and the axis bounds
`options.scales.{x.min, x.max, y.min, y.max}`).  `yMax = none` models the
initially-unset `y.max`. -/
structure ScatterState where
  showWeighted : Bool
  minPointTs : JNum
  finalized : Bool
  rawPoints : List EPoint
  dataset : List DataPoint
  guideLines : List (String × ℚ)
  xMin : JNum
  xMax : JNum
  yBaselineMin : ℚ
  yMax : Option JNum
deriving DecidableEq

/-- The scatter state built by the `EfficiencyScatter` constructor.
`startMs`/`endMs` stand for the constructor's
`anchorMs - (days+1)*24*60*60*1000` and `midnight(anchorMs)` (their exact
values depend on the environment clock/timezone and are irrelevant here).
Note `_minPointTs` is initialized to `-Infinity` (line 611). -/
def initScatter (startMs endMs : ℚ) (yBaselineMin : ℚ) : ScatterState :=
  { showWeighted := false
    minPointTs := .ninf
    finalized := false
    rawPoints := []
    dataset := []
    guideLines := []
    xMin := .fin startMs
    xMax := .fin endMs
    yBaselineMin := yBaselineMin
    yMax := none }

/-- Truthiness of the JS value held in `options.scales.y.max`
(`undefined`, `NaN` and `0` are falsy). -/
def falsyOpt : Option JNum → Bool
  | none => true
  | some v => jsFalsy v

/-- `candidate > yScale.max` where the right side may be `undefined`
(any comparison with `undefined` is false). -/
def gtOpt (candidate : JNum) : Option JNum → Bool
  | none => false
  | some b => jsLt b candidate

/-- `_yValues` (votes.js 907-910): the rendered dataset's y values,
restricted to finite numbers. -/
def yValues (s : ScatterState) : List ℚ :=
  s.dataset.filterMap (fun p => p.y.toFinQ)

/-- `Math.max(...l, b)`. -/
def maxQ (l : List ℚ) (b : ℚ) : ℚ := l.foldr max b

/-- `_stats` (votes.js 957-966): sort the finite y values ascending
(`.sort((a,b) => a-b)`, modelled by `insertionSort (· ≤ ·)`); `null`
mean/median when empty; mean is the arithmetic mean; median is
`ys[mid]` for odd length and `(ys[mid-1]+ys[mid])/2` for even length,
with `mid = ⌊len/2⌋`. -/
def stats (s : ScatterState) : Option ℚ × Option ℚ :=
  let ys := (yValues s).insertionSort (· ≤ ·)
  if ys.length = 0 then (none, none)
  else
    let mean := ys.sum / (ys.length : ℚ)
    let mid := ys.length / 2
    let median :=
      if ys.length % 2 = 1 then ys.getD mid 0
      else (ys.getD (mid - 1) 0 + ys.getD mid 0) / 2
    (some mean, some median)

/-- `_upsertLineDataset` (votes.js 968-1001) restricted to the state it
changes: replace the guide line keyed by `id` or append it.  (The
non-finite guard never fires for the finite stats computed here; the line
geometry spanning the x-range is presentation-only.) -/
def upsertLineDataset (gl : List (String × ℚ)) (id : String) (y : ℚ) :
    List (String × ℚ) :=
  if gl.any (fun g => g.1 = id) then
    gl.map (fun g => if g.1 = id then (id, y) else g)
  else gl ++ [(id, y)]

/-- `addStatsLines` (votes.js 845-870): only acts when `finalized`;
upserts the mean/median lines when the corresponding stat is truthy
(non-null and non-zero); then expands `y.max` to
`ceil(max(y.max ?? -Infinity, mean ?? -Infinity, median ?? -Infinity) + 5)`
when that max is finite. -/
def addStatsLines (s : ScatterState) : ScatterState :=
  if s.finalized then
    let st := stats s
    let gl1 := match st.1 with
      | some q => if q ≠ 0 then upsertLineDataset s.guideLines "mean-line" q
                  else s.guideLines
      | none => s.guideLines
    let gl2 := match st.2 with
      | some q => if q ≠ 0 then upsertLineDataset gl1 "median-line" q
                  else gl1
      | none => gl1
    let v := jsMax (jsMax (s.yMax.getD .ninf) (st.1.elim .ninf .fin))
      (st.2.elim .ninf .fin)
    let yMax2 := if isFinite v then some (jsCeil (jsAdd v (.fin 5))) else s.yMax
    { s with guideLines := gl2, yMax := yMax2 }
  else s

/-- `finalize` (votes.js 873-876). -/
def finalize (s : ScatterState) : ScatterState := { s with finalized := true }

/-- `pushPoint` (votes.js 760-816): reject when `tsMs` or `efficiency` is
non-finite; otherwise append to `_rawPoints`, project
`y = round(showWeighted ? weightedEff : efficiency)` into the dataset,
lower `x.min` to `tsMs - 5` when `tsMs < _minPointTs`, and raise `y.max`
to `ceil(y + pad)` when `y.max` is falsy or exceeded.  `pad` defaults to 5
at every call site in this repository. -/
def pushPoint (s : ScatterState) (p : EPoint) (pad : JNum) : ScatterState :=
  if !(isFinite p.tsMs) || !(isFinite p.efficiency) then s
  else
    let y := jsRound (if s.showWeighted then p.weightedEff else p.efficiency)
    let d : DataPoint :=
      ⟨p.tsMs, y, p.efficiency, p.weightedEff, p.voterRewardValue,
        p.totalValue, p.sameAuthor⟩
    let candidateMax := jsCeil (jsAdd y pad)
    let hit := jsLt p.tsMs s.minPointTs
    { s with
      rawPoints := s.rawPoints ++ [p]
      dataset := s.dataset ++ [d]
      minPointTs := if hit then p.tsMs else s.minPointTs
      xMin := if hit then jsSub p.tsMs (.fin 5) else s.xMin
      yMax := if falsyOpt s.yMax || gtOpt candidateMax s.yMax
              then some candidateMax else s.yMax }

/-- `toggleMode` (votes.js 818-843): flip the mode, re-project every
rendered point's `y` from its stored `efficiency`/`weightedEff`, clear the
guide lines, recompute `y.max` from scratch as
`ceil(max(...yVals, yBaselineMin) + 5)` (unset when no finite y), then
`addStatsLines` (which recomputes the guide lines when finalized). -/
def toggleMode (s : ScatterState) : ScatterState :=
  let m := !s.showWeighted
  let data := s.dataset.map
    (fun p => { p with y := jsRound (if m then p.weightedEff else p.efficiency) })
  let s1 := { s with showWeighted := m, dataset := data, guideLines := [] }
  let yVals := yValues s1
  let s2 := { s1 with
    yMax := if yVals.length ≠ 0
            then some (.fin ((⌈maxQ yVals s.yBaselineMin + 5⌉ : ℤ) : ℚ))
            else none }
  addStatsLines s2

/-! ## Efficiency aggregator: `VoterTip.prefetchEfficiencyData`
(VoterTip.js lines 72-158) and `getHistoricCurationRewards`
(votes.js lines 94-125) -/

/-- A run-fatal abort of `prefetchEfficiencyData`.  The only one the code
can produce is the `ReferenceError` thrown by the retry loop's catch block
on a non-503 failure: `console.error(..., error)` references the undefined
identifier `error` (the caught variable is named `err`), and the thrown
ReferenceError propagates out of the loop and rejects the whole run. -/
inductive RunAbort where
  | referenceError
deriving DecidableEq

/-- `getHistoricCurationRewards` (votes.js 94-125): a transport failure
(non-ok response or thrown fetch error) is caught, logged, and turned into
`null`; a successful response yields `data.result`. -/
def getHistoricCurationRewards :
    Except TransportError FetchResult → Option FetchResult
  | .ok r => some r
  | .error _ => none

/-- The retry loop body (VoterTip.js 87-101), one attempt per iteration,
5 iterations with no break: each attempt asks the cache (the same key every
time); a success assigns `histPost`; a failure matching the 503 test fires
a (non-awaited) `sleep(100)` and falls through to the next iteration; any
other failure executes the catch block whose `console.error(..., error)`
throws a ReferenceError, aborting the run. -/
def retryAttempts (resolve : Future → Except JsErr PostDetails) :
    Nat → Cache → String → String → JNum → Option PostDetails →
    Except RunAbort (Option PostDetails × Cache)
  | 0, c, _, _, _, acc => .ok (acc, c)
  | n + 1, c, a, p, t, acc =>
      let r := getPostCached c a p t
      match resolve r.1 with
      | .ok post => retryAttempts resolve n r.2 a p t (some post)
      | .error e =>
          if e.is503 then retryAttempts resolve n r.2 a p t acc
          else .error .referenceError

/-- `for (let i = 0; i < 5; i++) { ... }` around `getPostCached`. -/
def retryLoop (resolve : Future → Except JsErr PostDetails)
    (c : Cache) (a p : String) (t : JNum) :
    Except RunAbort (Option PostDetails × Cache) :=
  retryAttempts resolve 5 c a p t none

/-- The per-event metric computation (VoterTip.js 111-145), given the
resolved snapshot: validate the positivity guards, then
`efficiency = Math.round((pctReceived / pctContributed) * 100)`,
`weightedEfficiency = Math.round(efficiency * voteWeight)`, the 2-decimal
currency values, and the emitted point.  Returns the point together with
`voterContributedValue` (which only feeds the running totals), or `none`
when a guard rejects the event. -/
def computePoint (vote : Vote) (hp : PostDetails) (row : RewardRow)
    (sameAuthor : Bool) : Option (EPoint × JNum) :=
  let voterVests := jsOr0 row.vests
  let totalVests := hp.total_vests
  let totalRshares := hp.total_rshares
  let voterRshares := jsDiv vote.rshares (.fin 1000000)
  if jsLe totalVests (.fin 0) || jsLe totalRshares (.fin 0) ||
      jsLe voterRshares (.fin 0) || jsLe voterVests (.fin 0) then none
  else
    let pctContributed := jsDiv voterRshares totalRshares
    let pctReceived := jsDiv voterVests totalVests
    if jsLe pctContributed (.fin 0) then none
    else
      let efficiency := jsRound (jsMul (jsDiv pctReceived pctContributed) (.fin 100))
      let voteWeight := jsDiv vote.percent (.fin 10000)
      let weightedEff := jsRound (jsMul efficiency voteWeight)
      let tsMs := jsMul row.timeSec (.fin 1000)
      let totalValue := jsToFixed2 hp.total_payout_value
      let voterRewardValue :=
        jsToFixed2 (jsMul (jsDiv voterVests totalVests) totalValue)
      let voterContributedValue :=
        jsToFixed2 (jsMul (jsDiv voterRshares totalRshares) totalValue)
      some (⟨tsMs, efficiency, weightedEff, voterRewardValue, totalValue,
        sameAuthor⟩, voterContributedValue)

/-- The aggregator-side mutable state of one `VoterTip` instance: the
shared post cache, the scatter it owns, and its accumulators
(`efficiencyData`, `totalCurationRew`, `contributedValue`, `totAuthor`). -/
structure AggState where
  cache : Cache
  scatter : ScatterState
  efficiencyData : List EPoint
  totalCurationRew : JNum
  contributedValue : JNum
  totAuthor : Nat
deriving DecidableEq

/-- The accumulator state set up by the `VoterTip` constructor. -/
def initAgg (c : Cache) (sc : ScatterState) : AggState :=
  { cache := c, scatter := sc, efficiencyData := [],
    totalCurationRew := .fin 0, contributedValue := .fin 0, totAuthor := 0 }

/-- One iteration of the `for (const reward of rows)` loop
(VoterTip.js 80-154): skip falsy `timeSec`; run the 5-attempt retry loop;
skip the event when `histPost` is still unset; count `sameAuthor`; compute
the point (skipping on a validation guard); otherwise update the running
totals, append the point to `efficiencyData`, and push it to the scatter
(`updateMetrics` and `sleep(50)` have no model-visible state). -/
def processRow (resolve : Future → Except JsErr PostDetails) (vote : Vote)
    (postAuthor : String) (s : AggState) (row : RewardRow) :
    Except RunAbort AggState :=
  if jsFalsy row.timeSec then .ok s
  else
    match retryLoop resolve s.cache row.author row.permlink row.timeSec with
    | .error a => .error a
    | .ok (none, c2) => .ok { s with cache := c2 }
    | .ok (some hp, c2) =>
        let sameAuthor := hp.author = postAuthor
        let totAuthor := if sameAuthor then s.totAuthor + 1 else s.totAuthor
        match computePoint vote hp row sameAuthor with
        | none => .ok { s with cache := c2, totAuthor := totAuthor }
        | some pr =>
            .ok { s with
              cache := c2
              totAuthor := totAuthor
              contributedValue := jsAdd s.contributedValue pr.2
              totalCurationRew := jsAdd s.totalCurationRew pr.1.voterRewardValue
              efficiencyData := s.efficiencyData ++ [pr.1]
              scatter := pushPoint s.scatter pr.1 (.fin 5) }

/-- `prefetchEfficiencyData` (VoterTip.js 72-158): take the window-fetch
result (`res?.rows ?? []`), process the rows in order, and on normal
completion call `scatter.finalize()` then `scatter.addStatsLines()`.
A thrown ReferenceError propagates and rejects the run before the
finalize step. -/
def prefetchEfficiencyData (resolve : Future → Except JsErr PostDetails)
    (vote : Vote) (postAuthor : String) (res : Option FetchResult)
    (s0 : AggState) : Except RunAbort AggState := do
  let rows := (res.map FetchResult.rows).getD []
  let s ← rows.foldlM (fun s row => processRow resolve vote postAuthor s row) s0
  pure { s with scatter := addStatsLines (finalize s.scatter) }

/-! ## Helper lemmas on the JS number model -/

theorem jsLe_fin (a b : ℚ) : jsLe (.fin a) (.fin b) = decide (a ≤ b) := rfl

theorem jsLt_fin (a b : ℚ) : jsLt (.fin a) (.fin b) = decide (a < b) := rfl

theorem jsMul_fin (a b : ℚ) : jsMul (.fin a) (.fin b) = .fin (a * b) := rfl

theorem jsAdd_fin (a b : ℚ) : jsAdd (.fin a) (.fin b) = .fin (a + b) := rfl

theorem jsFalsy_fin (q : ℚ) : jsFalsy (.fin q) = decide (q = 0) := rfl

theorem jsRound_fin (q : ℚ) : jsRound (.fin q) = .fin ((round q : ℤ) : ℚ) := rfl

theorem jsDiv_fin (a b : ℚ) (hb : b ≠ 0) :
    jsDiv (.fin a) (.fin b) = .fin (a / b) := by
  simp [jsDiv, hb]

theorem jsOr0_fin_ne (q : ℚ) (h : q ≠ 0) : jsOr0 (.fin q) = .fin q := by
  simp [jsOr0, jsFalsy, h]

/-! ## C5: the post cache collapses calls by (author, permlink) only -/

/-- C5: two `getPostCached` calls with the same `(author, permlink)` key
and different `asOfTime` arguments return the same cached future (hence
any resolution oracle gives them the identical snapshot); only the first
call starts the underlying fetch-and-build sequence (extends the cache),
and the future records the first caller's time parameter. -/
theorem c5_cache_dedup_first_time_wins (c : Cache) (a p : String)
    (t1 t2 : JNum) (hc : c.lookup (keyFor a p) = none) :
    (getPostCached c a p t1).1 = ⟨a, p, t1⟩ ∧
    (getPostCached c a p t1).2 = (keyFor a p, Future.mk a p t1) :: c ∧
    getPostCached (getPostCached c a p t1).2 a p t2 =
      (Future.mk a p t1, (getPostCached c a p t1).2) ∧
    ∀ resolve : Future → Except JsErr PostDetails,
      resolve (getPostCached (getPostCached c a p t1).2 a p t2).1 =
        resolve (getPostCached c a p t1).1 := by
  have h1 : getPostCached c a p t1 =
      (Future.mk a p t1, (keyFor a p, Future.mk a p t1) :: c) := by
    unfold getPostCached
    rw [hc]
  have h2 : getPostCached ((keyFor a p, Future.mk a p t1) :: c) a p t2 =
      (Future.mk a p t1, (keyFor a p, Future.mk a p t1) :: c) := by
    unfold getPostCached
    simp [List.lookup]
  refine ⟨by rw [h1], by rw [h1], ?_, ?_⟩
  · rw [h1]
    exact h2
  · intro resolve
    rw [h1, h2]

/-- Closed witness for C5 at a concrete cache and key. -/
theorem c5_cache_dedup_first_time_wins_witness :
    (([] : Cache).lookup (keyFor "alice" "chart") = none) ∧
    ((getPostCached ([] : Cache) "alice" "chart" (.fin 1)).1 =
        ⟨"alice", "chart", .fin 1⟩ ∧
      (getPostCached ([] : Cache) "alice" "chart" (.fin 1)).2 =
        (keyFor "alice" "chart", Future.mk "alice" "chart" (.fin 1)) :: [] ∧
      getPostCached (getPostCached ([] : Cache) "alice" "chart" (.fin 1)).2
          "alice" "chart" (.fin 2) =
        (Future.mk "alice" "chart" (.fin 1),
          (getPostCached ([] : Cache) "alice" "chart" (.fin 1)).2) ∧
      ∀ resolve : Future → Except JsErr PostDetails,
        resolve (getPostCached
            (getPostCached ([] : Cache) "alice" "chart" (.fin 1)).2
            "alice" "chart" (.fin 2)).1 =
          resolve (getPostCached ([] : Cache) "alice" "chart" (.fin 1)).1) :=
  ⟨rfl, c5_cache_dedup_first_time_wins [] "alice" "chart" (.fin 1) (.fin 2) rfl⟩

/-! ## C10: a rejected future stays cached for the whole session -/

/-- Once the cache holds a future for a key, every later call for that key
(at any position in any interleaved call sequence) receives that future. -/
theorem runCalls_key_future (a p : String) (f : Future) :
    ∀ (calls : List (String × String × JNum)) (c : Cache),
      c.lookup (keyFor a p) = some f →
      ∀ pr ∈ (runCalls c calls).1.zip calls,
        keyFor pr.2.1 pr.2.2.1 = keyFor a p → pr.1 = f
  | [], _, _, _, hpr, _ => by simp [runCalls] at hpr
  | (a1, p1, t1) :: rest, c, hc, pr, hpr, hkey => by
      simp only [runCalls, List.zip, List.zipWith, List.mem_cons] at hpr
      rcases hpr with h | h
      · subst h
        simp only at hkey ⊢
        unfold getPostCached
        rw [hkey, hc]
      · exact runCalls_key_future a p f rest (getPostCached c a1 p1 t1).2
          (getPostCached_preserves_lookup c (keyFor a p) f hc a1 p1 t1) pr h hkey

/-- C10 (implicit): when the future cached under a key has a rejected
outcome, every subsequent call for that key — with any `asOfTime`, from
this run's 5 retry attempts or from any other run sharing the cache —
returns that same future and observes the same error; in particular the
retry loop can never succeed for that key: with a 503 error it exhausts
its budget and the event is skipped (`histPost` stays unset, cache
unchanged), and with any other error the run aborts. -/
theorem c10_rejected_future_stays_cached
    (resolve : Future → Except JsErr PostDetails)
    (c : Cache) (a p : String) (f : Future) (e : JsErr)
    (hc : c.lookup (keyFor a p) = some f)
    (he : resolve f = .error e) :
    (∀ t, getPostCached c a p t = (f, c)) ∧
    (∀ t, resolve (getPostCached c a p t).1 = .error e) ∧
    (e.is503 = true → ∀ t, retryLoop resolve c a p t = .ok (none, c)) ∧
    (e.is503 = false → ∀ t,
        retryLoop resolve c a p t = .error .referenceError) ∧
    (∀ calls : List (String × String × JNum),
        ∀ pr ∈ (runCalls c calls).1.zip calls,
          keyFor pr.2.1 pr.2.2.1 = keyFor a p →
            pr.1 = f ∧ resolve pr.1 = .error e) := by
  have h1 : ∀ t, getPostCached c a p t = (f, c) := by
    intro t
    unfold getPostCached
    rw [hc]
  refine ⟨h1, fun t => by rw [h1 t]; exact he, ?_, ?_, ?_⟩
  · intro h503 t
    simp [retryLoop, retryAttempts, h1 t, he, h503]
  · intro h503 t
    simp [retryLoop, retryAttempts, h1 t, he, h503]
  · intro calls pr hpr hkey
    have := runCalls_key_future a p f calls c hc pr hpr hkey
    exact ⟨this, by rw [this]; exact he⟩

/-- Closed witness for C10 at a concrete cache whose stored future rejects
with a 503. -/
theorem c10_rejected_future_stays_cached_witness :
    (((keyFor "alice" "chart", Future.mk "alice" "chart" (.fin 1)) ::
        ([] : Cache)).lookup (keyFor "alice" "chart") =
      some (Future.mk "alice" "chart" (.fin 1))) ∧
    (fun _ : Future => (.error ⟨true⟩ : Except JsErr PostDetails))
        (Future.mk "alice" "chart" (.fin 1)) = .error ⟨true⟩ ∧
    getPostCached
        ((keyFor "alice" "chart", Future.mk "alice" "chart" (.fin 1)) :: [])
        "alice" "chart" (.fin 99) =
      (Future.mk "alice" "chart" (.fin 1),
        (keyFor "alice" "chart", Future.mk "alice" "chart" (.fin 1)) :: []) ∧
    retryLoop (fun _ => .error ⟨true⟩)
        ((keyFor "alice" "chart", Future.mk "alice" "chart" (.fin 1)) :: [])
        "alice" "chart" (.fin 99) =
      .ok (none,
        (keyFor "alice" "chart", Future.mk "alice" "chart" (.fin 1)) :: []) := by
  have h := c10_rejected_future_stays_cached (fun _ => .error ⟨true⟩)
    ((keyFor "alice" "chart", Future.mk "alice" "chart" (.fin 1)) :: [])
    "alice" "chart" (Future.mk "alice" "chart" (.fin 1)) ⟨true⟩ rfl rfl
  exact ⟨rfl, rfl, h.1 (.fin 99), h.2.2.1 rfl (.fin 99)⟩

/-! ## C1: the per-event efficiency formula -/

/-- C1: for every reward event whose resolved snapshot has positive total
vests and total rshares, whose scaled vote rshares are positive, and whose
event vests are positive, the emitted point satisfies exactly
`efficiency = round(100 * (eventVests/totalVests) / ((vote.rshares/1000000)/totalRshares))`
and `weightedEff = round(efficiency * vote.percent / 10000)`. -/
theorem c1_efficiency_formula (vote : Vote) (hp : PostDetails)
    (row : RewardRow) (sa : Bool) (TV TR VR P EV : ℚ)
    (h1 : hp.total_vests = .fin TV) (h2 : hp.total_rshares = .fin TR)
    (h3 : vote.rshares = .fin VR) (h4 : vote.percent = .fin P)
    (h5 : row.vests = .fin EV)
    (hTV : 0 < TV) (hTR : 0 < TR) (hVR : 0 < VR / 1000000) (hEV : 0 < EV) :
    (computePoint vote hp row sa).map
        (fun r => (r.1.efficiency, r.1.weightedEff)) =
      some
        (.fin ((round (100 * (EV / TV) / ((VR / 1000000) / TR)) : ℤ) : ℚ),
          .fin ((round
            (((round (100 * (EV / TV) / ((VR / 1000000) / TR)) : ℤ) : ℚ) *
              (P / 10000)) : ℤ) : ℚ)) := by
  have hTV0 : TV ≠ 0 := ne_of_gt hTV
  have hTR0 : TR ≠ 0 := ne_of_gt hTR
  have hpcpos : 0 < VR / 1000000 / TR := div_pos hVR hTR
  have hpc0 : VR / 1000000 / TR ≠ 0 := ne_of_gt hpcpos
  have g1 : decide (TV ≤ 0) = false := decide_eq_false (not_le.mpr hTV)
  have g2 : decide (TR ≤ 0) = false := decide_eq_false (not_le.mpr hTR)
  have g3 : decide (VR / 1000000 ≤ 0) = false := decide_eq_false (not_le.mpr hVR)
  have g4 : decide (EV ≤ 0) = false := decide_eq_false (not_le.mpr hEV)
  have g5 : decide (VR / 1000000 / TR ≤ 0) = false :=
    decide_eq_false (not_le.mpr hpcpos)
  have harg : EV / TV / (VR / 1000000 / TR) * 100 =
      100 * (EV / TV) / (VR / 1000000 / TR) := by ring
  simp only [computePoint, h1, h2, h3, h4, h5,
    jsOr0_fin_ne EV (ne_of_gt hEV),
    jsDiv_fin VR 1000000 (by norm_num),
    jsDiv_fin (VR / 1000000) TR hTR0,
    jsDiv_fin EV TV hTV0,
    jsDiv_fin (EV / TV) (VR / 1000000 / TR) hpc0,
    jsDiv_fin P 10000 (by norm_num),
    jsLe_fin, g1, g2, g3, g4, g5, jsMul_fin, jsRound_fin,
    Bool.or_self, Bool.or_false, Bool.false_or, if_false,
    Option.map_some, harg]
  simp

/-- Closed witness for C1 at the spec's worked scenario: event vests 5,
snapshot totals (100 vests, 1000 rshares), vote rshares 100000000 and
percent 10000, giving efficiency 50 and weighted efficiency 50. -/
theorem c1_efficiency_formula_witness :
    (computePoint ⟨.fin 100000000, .fin 10000⟩
        ⟨"bob", .fin 100, .fin 1000, .fin 50⟩
        ⟨.fin 1000, "bob", "perm", .fin 5⟩ false).map
        (fun r => (r.1.efficiency, r.1.weightedEff)) =
      some (.fin 50, .fin 50) := by
  have h := c1_efficiency_formula ⟨.fin 100000000, .fin 10000⟩
    ⟨"bob", .fin 100, .fin 1000, .fin 50⟩
    ⟨.fin 1000, "bob", "perm", .fin 5⟩ false 100 1000 100000000 10000 5
    rfl rfl rfl rfl rfl (by norm_num) (by norm_num) (by norm_num) (by norm_num)
  rw [h]
  norm_num [round_eq]

/-! ## C2: behaviour of a run whose window fetch fails -/

/-- C2 counterexample: with a transport failure of the window fetch the run
does NOT abort — `getHistoricCurationRewards` catches the error and returns
null — and it DOES mutate the chart: the run completes normally (`.ok`, no
aggregator-level failure reported) with zero points, and `finalize` has
been applied to the chart state. -/
theorem c2_counterexample_fetch_failure_still_finalizes :
    (prefetchEfficiencyData (fun _ => .error ⟨true⟩) ⟨.fin 1, .fin 10000⟩
        "alice" (getHistoricCurationRewards (.error ⟨⟩))
        (initAgg [] (initScatter 0 86400000 0))).toOption.map
        (fun s => (s.efficiencyData.length, s.scatter.finalized,
          s.scatter.guideLines.length)) =
      some (0, true, 0) := rfl

/-- C2 amended: when the window fetch fails with a transport error,
`getHistoricCurationRewards` logs and returns null; the run then emits
zero points, leaves the totals and cache untouched, performs no per-point
chart mutation, but still completes successfully (no failure surfaced to
the caller) and still finalizes the chart and runs the guide-line
computation (which draws nothing when there are no points). -/
theorem c2_amended_fetch_failure_zero_points_but_finalized
    (resolve : Future → Except JsErr PostDetails) (vote : Vote)
    (postAuthor : String) (c : Cache) (sc : ScatterState)
    (e : TransportError) :
    prefetchEfficiencyData resolve vote postAuthor
        (getHistoricCurationRewards (.error e)) (initAgg c sc) =
      .ok { initAgg c sc with scatter := addStatsLines (finalize sc) } ∧
    ({ initAgg c sc with
        scatter := addStatsLines (finalize sc) }).efficiencyData = [] ∧
    (addStatsLines (finalize sc)).finalized = true ∧
    (addStatsLines (finalize sc)).rawPoints = sc.rawPoints ∧
    (addStatsLines (finalize sc)).dataset = sc.dataset := by
  refine ⟨rfl, rfl, ?_, ?_, ?_⟩ <;> simp [addStatsLines, finalize]

/-! ## C3: a non-503 retry failure aborts the whole run -/

/-- C3 evaluation at the failing input: a single reward row whose snapshot
resolution rejects with a non-503 error makes the whole run reject (the
catch block's `console.error` references the undefined identifier `error`,
throwing a ReferenceError) instead of logging, retrying and skipping the
event. -/
theorem c3_non503_failure_aborts_run :
    prefetchEfficiencyData (fun _ => .error ⟨false⟩) ⟨.fin 1, .fin 10000⟩
        "alice" (some ⟨[⟨.fin 1000, "bob", "perm", .fin 5⟩]⟩)
        (initAgg [] (initScatter 0 86400000 0)) =
      .error .referenceError := rfl

/-! ## C4: the out-of-window x-min expansion never fires -/

/-- C4 evaluation at the failing input: a point whose `tsMs` (500000)
precedes the chart's current x-axis minimum (1000000) leaves `x.min`
unchanged, because the guard compares `tsMs` against `_minPointTs`, which
is initialized to `-Infinity` and therefore never exceeded. -/
theorem c4_out_of_window_point_leaves_xmin :
    jsLt (.fin 500000) (initScatter 1000000 2000000 0).xMin = true ∧
    (pushPoint (initScatter 1000000 2000000 0)
        ⟨.fin 500000, .fin 10, .fin 5, .fin 1, .fin 2, false⟩ (.fin 5)).xMin =
      .fin 1000000 ∧
    (pushPoint (initScatter 1000000 2000000 0)
        ⟨.fin 500000, .fin 10, .fin 5, .fin 1, .fin 2, false⟩
        (.fin 5)).minPointTs = .ninf := ⟨rfl, rfl, rfl⟩

/-! ## C8: the append rejection test -/

/-- C8 counterexample: in WEIGHTED mode, a point whose active-mode y value
(`weightedEff`) is NaN but whose `efficiency` is finite is NOT rejected —
`pushPoint` appends it to the raw points (the finiteness check always
tests `efficiency`, never the active-mode value). -/
theorem c8_counterexample_weighted_mode_nan_accepted :
    (toggleMode (initScatter 0 1 0)).showWeighted = true ∧
    isFinite JNum.nan = false ∧
    (pushPoint (toggleMode (initScatter 0 1 0))
        ⟨.fin 0, .fin 1, .nan, .fin 0, .fin 0, false⟩ (.fin 5)).rawPoints =
      [⟨.fin 0, .fin 1, .nan, .fin 0, .fin 0, false⟩] := ⟨rfl, rfl, rfl⟩

/-- C8 amended: `append(point)` is a rejecting no-op (no state change)
exactly when `tsMs` or `efficiency` is non-finite — the check uses
`efficiency` regardless of the active mode; otherwise the point is stored
in the raw points and projected into the dataset (in WEIGHTED mode even
when `weightedEff` is non-finite, in which case the projected `y` is that
non-finite value). -/
theorem c8_amended_reject_tests_efficiency_only (s : ScatterState)
    (p : EPoint) (pad : JNum) :
    ((!(isFinite p.tsMs) || !(isFinite p.efficiency)) = true →
      pushPoint s p pad = s) ∧
    ((!(isFinite p.tsMs) || !(isFinite p.efficiency)) = false →
      (pushPoint s p pad).rawPoints = s.rawPoints ++ [p] ∧
      (pushPoint s p pad).dataset = s.dataset ++
        [⟨p.tsMs,
          jsRound (if s.showWeighted then p.weightedEff else p.efficiency),
          p.efficiency, p.weightedEff, p.voterRewardValue, p.totalValue,
          p.sameAuthor⟩]) := by
  constructor
  · intro h
    simp [pushPoint, h]
  · intro h
    simp [pushPoint, h]

/-- Closed witness for C8's amended statement: a NaN-timestamped point is a
no-op, and a finite point is appended. -/
theorem c8_amended_reject_tests_efficiency_only_witness :
    pushPoint (initScatter 0 1 0)
        ⟨.nan, .fin 1, .fin 1, .fin 0, .fin 0, false⟩ (.fin 5) =
      initScatter 0 1 0 ∧
    (pushPoint (initScatter 0 1 0)
        ⟨.fin 7, .fin 1, .fin 2, .fin 0, .fin 0, false⟩ (.fin 5)).rawPoints =
      [⟨.fin 7, .fin 1, .fin 2, .fin 0, .fin 0, false⟩] := by
  constructor
  · exact (c8_amended_reject_tests_efficiency_only (initScatter 0 1 0)
      ⟨.nan, .fin 1, .fin 1, .fin 0, .fin 0, false⟩ (.fin 5)).1 rfl
  · exact ((c8_amended_reject_tests_efficiency_only (initScatter 0 1 0)
      ⟨.fin 7, .fin 1, .fin 2, .fin 0, .fin 0, false⟩ (.fin 5)).2 rfl).1

/-! ## C7: the mode-toggle round-trip law -/

/-- The active-mode value of a rendered point (the value `toggleMode`
re-projects from). -/
def dpActiveVal (m : Bool) (p : DataPoint) : JNum :=
  if m then p.weightedEff else p.efficiency

/-- The projection invariant every reachable chart state satisfies: each
rendered point's `y` is the rounded active-mode value carried by that
point. -/
def projInv (s : ScatterState) : Prop :=
  ∀ p ∈ s.dataset, p.y = jsRound (dpActiveVal s.showWeighted p)

theorem addStatsLines_dataset (s : ScatterState) :
    (addStatsLines s).dataset = s.dataset := by
  unfold addStatsLines
  split <;> rfl

theorem addStatsLines_showWeighted (s : ScatterState) :
    (addStatsLines s).showWeighted = s.showWeighted := by
  unfold addStatsLines
  split <;> rfl

theorem toggleMode_dataset (s : ScatterState) :
    (toggleMode s).dataset = s.dataset.map
      (fun p => { p with
        y := jsRound (if !s.showWeighted then p.weightedEff else p.efficiency) }) := by
  unfold toggleMode
  rw [addStatsLines_dataset]

theorem toggleMode_showWeighted (s : ScatterState) :
    (toggleMode s).showWeighted = !s.showWeighted := by
  unfold toggleMode
  rw [addStatsLines_showWeighted]

/-- C7: toggling the display mode twice reproduces exactly the same
projected `y` for every stored point as before any toggle, because each
toggle re-projects `y` from the stored `efficiency`/`weightedEff` values
(never from the already-rendered `y`), for every chart state satisfying
the projection invariant (which every reachable state does). -/
theorem c7_toggle_roundtrip (s : ScatterState) (h : projInv s) :
    (toggleMode (toggleMode s)).dataset.map DataPoint.y =
      s.dataset.map DataPoint.y ∧
    (toggleMode (toggleMode s)).showWeighted = s.showWeighted := by
  constructor
  · rw [toggleMode_dataset, toggleMode_showWeighted, toggleMode_dataset,
      Bool.not_not, List.map_map, List.map_map]
    apply List.map_congr_left
    intro p hp
    have hy := h p hp
    cases hsw : s.showWeighted <;>
      simp only [hsw, Bool.not_false, Bool.not_true, Function.comp_apply] <;>
      · rw [hy, hsw]
        rfl
  · rw [toggleMode_showWeighted, toggleMode_showWeighted, Bool.not_not]

/-- Closed witness for C7 at a one-point chart state. -/
theorem c7_toggle_roundtrip_witness :
    (toggleMode (toggleMode { initScatter 0 1 0 with
        dataset := [⟨.fin 1, jsRound (.fin 7), .fin 7, .fin 3, .fin 0,
          .fin 0, false⟩] })).dataset.map DataPoint.y =
      ({ initScatter 0 1 0 with
        dataset := [⟨.fin 1, jsRound (.fin 7), .fin 7, .fin 3, .fin 0,
          .fin 0, false⟩] } : ScatterState).dataset.map DataPoint.y ∧
    (toggleMode (toggleMode { initScatter 0 1 0 with
        dataset := [⟨.fin 1, jsRound (.fin 7), .fin 7, .fin 3, .fin 0,
          .fin 0, false⟩] })).showWeighted =
      ({ initScatter 0 1 0 with
        dataset := [⟨.fin 1, jsRound (.fin 7), .fin 7, .fin 3, .fin 0,
          .fin 0, false⟩] } : ScatterState).showWeighted := by
  apply c7_toggle_roundtrip
  intro p hp
  rw [List.mem_singleton] at hp
  subst hp
  rfl

/-! ## C9: the guide-line statistics -/

/-- Spec-side mean (from the spec's words): the arithmetic mean of the
values. -/
def specMean (l : List ℚ) : ℚ := l.sum / l.length

/-- Spec-side median (from the spec's words): the standard even/odd
midpoint-average rule over a sorted sequence. -/
def specMedianOfSorted (l : List ℚ) : ℚ :=
  if l.length % 2 = 1 then l.getD (l.length / 2) 0
  else (l.getD (l.length / 2 - 1) 0 + l.getD (l.length / 2) 0) / 2

/-- C9: the guide-line statistics are computed over the currently-projected
finite y values: the mean is their arithmetic mean and the median follows
the standard even/odd midpoint-average rule over the sorted sequence; in
particular a chart whose projected y values are [10, 20, 30] has median 20
and one with [10, 20, 30, 40] has median 25. -/
theorem c9_stats_mean_median :
    (∀ s : ScatterState, yValues s ≠ [] →
        stats s = (some (specMean (yValues s)),
          some (specMedianOfSorted ((yValues s).insertionSort (· ≤ ·))))) ∧
    (∀ s : ScatterState, yValues s = [10, 20, 30] →
        (stats s).2 = some 20 ∧ (stats s).1 = some 20) ∧
    (∀ s : ScatterState, yValues s = [10, 20, 30, 40] →
        (stats s).2 = some 25 ∧ (stats s).1 = some 25) := by
  refine ⟨?_, ?_, ?_⟩
  · intro s hne
    have hperm := List.perm_insertionSort (· ≤ ·) (yValues s)
    have hlen : ((yValues s).insertionSort (· ≤ ·)).length =
        (yValues s).length := hperm.length_eq
    have hsum : ((yValues s).insertionSort (· ≤ ·)).sum =
        (yValues s).sum := hperm.sum_eq
    have h0 : ¬ ((yValues s).insertionSort (· ≤ ·)).length = 0 := by
      rw [hlen]
      exact fun h => hne (List.length_eq_zero.mp h)
    have h0q : ¬ (yValues s).length = 0 :=
      fun h => hne (List.length_eq_zero.mp h)
    unfold stats specMean specMedianOfSorted
    simp only [if_neg h0, if_neg h0q, hsum, hlen]
  · intro s h
    unfold stats
    rw [h]
    norm_num [List.insertionSort, List.orderedInsert]
  · intro s h
    unfold stats
    rw [h]
    norm_num [List.insertionSort, List.orderedInsert]

/-- Closed witness for C9 at concrete three- and four-point chart states. -/
theorem c9_stats_mean_median_witness :
    (stats { initScatter 0 1 0 with dataset :=
        [⟨.fin 0, .fin 10, .fin 10, .fin 0, .fin 0, .fin 0, false⟩,
          ⟨.fin 0, .fin 20, .fin 20, .fin 0, .fin 0, .fin 0, false⟩,
          ⟨.fin 0, .fin 30, .fin 30, .fin 0, .fin 0, .fin 0, false⟩] }).2 =
      some 20 ∧
    (stats { initScatter 0 1 0 with dataset :=
        [⟨.fin 0, .fin 10, .fin 10, .fin 0, .fin 0, .fin 0, false⟩,
          ⟨.fin 0, .fin 20, .fin 20, .fin 0, .fin 0, .fin 0, false⟩,
          ⟨.fin 0, .fin 30, .fin 30, .fin 0, .fin 0, .fin 0, false⟩,
          ⟨.fin 0, .fin 40, .fin 40, .fin 0, .fin 0, .fin 0, false⟩] }).2 =
      some 25 := by
  constructor
  · exact (c9_stats_mean_median.2.1 { initScatter 0 1 0 with dataset :=
      [⟨.fin 0, .fin 10, .fin 10, .fin 0, .fin 0, .fin 0, false⟩,
        ⟨.fin 0, .fin 20, .fin 20, .fin 0, .fin 0, .fin 0, false⟩,
        ⟨.fin 0, .fin 30, .fin 30, .fin 0, .fin 0, .fin 0, false⟩] }
      (by rfl)).1
  · exact (c9_stats_mean_median.2.2 { initScatter 0 1 0 with dataset :=
      [⟨.fin 0, .fin 10, .fin 10, .fin 0, .fin 0, .fin 0, false⟩,
        ⟨.fin 0, .fin 20, .fin 20, .fin 0, .fin 0, .fin 0, false⟩,
        ⟨.fin 0, .fin 30, .fin 30, .fin 0, .fin 0, .fin 0, false⟩,
        ⟨.fin 0, .fin 40, .fin 40, .fin 0, .fin 0, .fin 0, false⟩] }
      (by rfl)).1

/-! ## C6: yMax monotonicity while streaming -/

/-- The active-mode value of an incoming point. -/
def activeVal (m : Bool) (p : EPoint) : JNum :=
  if m then p.weightedEff else p.efficiency

/-- A point that `pushPoint` accepts and whose y-max candidate
`ceil(round(activeValue) + 5)` is positive (the claim's condition
`y > -pad`, which in particular covers every nonnegative y). -/
def goodPt (m : Bool) (p : EPoint) : Prop :=
  isFinite p.tsMs = true ∧ isFinite p.efficiency = true ∧
  ∃ q : ℚ, activeVal m p = .fin q ∧ 1 ≤ round q + 5

/-- The y-max candidate `ceil(y + pad)` of a point (with the default
`pad = 5`), as an integer. -/
def candOf (m : Bool) (p : EPoint) : ℤ :=
  round (((activeVal m p).toFinQ).getD 0) + 5

/-- Order between two `y.max` slots: any finite bound on the left is
matched by a finite bound at least as large on the right. -/
def yLe (a b : Option JNum) : Prop :=
  ∀ q : ℚ, a = some (.fin q) → ∃ r : ℚ, b = some (.fin r) ∧ q ≤ r

/-- The `y.max` invariant maintained while streaming good points: unset,
or a finite integer bound of at least 1 (so never the falsy 0). -/
def yMaxInv (s : ScatterState) : Prop :=
  s.yMax = none ∨ ∃ M : ℤ, s.yMax = some (.fin (M : ℚ)) ∧ 1 ≤ M

theorem yLe_refl (a : Option JNum) : yLe a a :=
  fun q h => ⟨q, h, le_refl q⟩

theorem yLe_trans {a b c : Option JNum} (h1 : yLe a b) (h2 : yLe b c) :
    yLe a c := by
  intro q h
  obtain ⟨r, hr, hqr⟩ := h1 q h
  obtain ⟨t, ht, hrt⟩ := h2 r hr
  exact ⟨t, ht, le_trans hqr hrt⟩

theorem pushPoint_showWeighted (s : ScatterState) (p : EPoint) (pad : JNum) :
    (pushPoint s p pad).showWeighted = s.showWeighted := by
  unfold pushPoint
  split <;> rfl

/-- The y-max candidate of a finite value evaluates to the integer
`round q + 5`. -/
theorem candidate_eval (q : ℚ) :
    jsCeil (jsAdd (jsRound (.fin q)) (.fin 5)) =
      .fin ((round q + 5 : ℤ) : ℚ) := by
  simp only [jsRound, jsAdd, jsCeil, JNum.fin.injEq]
  rw [show ((round q : ℤ) : ℚ) + 5 = ((round q + 5 : ℤ) : ℚ) by push_cast; ring,
    Int.ceil_intCast]

/-- The `y.max` slot after an accepted `pushPoint`. -/
theorem pushPoint_yMax_eval (s : ScatterState) (p : EPoint)
    (ht : isFinite p.tsMs = true) (he : isFinite p.efficiency = true) :
    (pushPoint s p (.fin 5)).yMax =
      if falsyOpt s.yMax ||
          gtOpt (jsCeil (jsAdd (jsRound (activeVal s.showWeighted p)) (.fin 5)))
            s.yMax
      then some (jsCeil (jsAdd (jsRound (activeVal s.showWeighted p)) (.fin 5)))
      else s.yMax := by
  simp [pushPoint, ht, he, activeVal]

/-- One accepted push preserves the invariant, never lowers `y.max`, and
leaves a finite integer bound dominating the point's candidate. -/
theorem pushPoint_yMax_step (s : ScatterState) (p : EPoint)
    (hinv : yMaxInv s) (hg : goodPt s.showWeighted p) :
    yMaxInv (pushPoint s p (.fin 5)) ∧
    yLe s.yMax (pushPoint s p (.fin 5)).yMax ∧
    ∃ C : ℤ, (pushPoint s p (.fin 5)).yMax = some (.fin (C : ℚ)) ∧
      candOf s.showWeighted p ≤ C := by
  obtain ⟨ht, he, q, hq, hq5⟩ := hg
  have hcand : candOf s.showWeighted p = round q + 5 := by
    unfold candOf
    rw [hq]
    rfl
  have heval := pushPoint_yMax_eval s p ht he
  rw [hq, candidate_eval q] at heval
  rcases hinv with hnone | ⟨M, hM, hM1⟩
  · rw [hnone] at heval
    simp only [falsyOpt, Bool.true_or, if_true] at heval
    refine ⟨Or.inr ⟨round q + 5, heval, hq5⟩, ?_, round q + 5, heval,
      le_of_eq hcand⟩
    intro q' hq'
    rw [hnone] at hq'
    cases hq'
  · have hfalsy : falsyOpt s.yMax = false := by
      rw [hM]
      simp only [falsyOpt, jsFalsy]
      have : ((M : ℚ)) ≠ 0 := by
        exact_mod_cast (by omega : M ≠ 0)
      simp [this]
    have hgt : gtOpt (.fin ((round q + 5 : ℤ) : ℚ)) s.yMax =
        decide ((M : ℚ) < ((round q + 5 : ℤ) : ℚ)) := by
      rw [hM]
      rfl
    rw [hfalsy, hgt, Bool.false_or] at heval
    by_cases hlt : (M : ℚ) < ((round q + 5 : ℤ) : ℚ)
    · rw [decide_eq_true hlt, if_pos rfl] at heval
      have hMC : M ≤ round q + 5 := by exact_mod_cast le_of_lt hlt
      refine ⟨Or.inr ⟨round q + 5, heval, le_trans hM1 hMC⟩, ?_,
        round q + 5, heval, le_of_eq hcand⟩
      intro q' hq'
      rw [hM] at hq'
      obtain rfl : q' = (M : ℚ) := by
        injection hq' with h
        injection h with h2
        exact h2.symm
      exact ⟨((round q + 5 : ℤ) : ℚ), heval, le_of_lt hlt⟩
    · rw [decide_eq_false hlt, if_neg (by simp)] at heval
      have hCM : round q + 5 ≤ M := by exact_mod_cast not_lt.mp hlt
      have hyM : (pushPoint s p (JNum.fin 5)).yMax = some (.fin (M : ℚ)) := by
        rw [heval, hM]
      refine ⟨Or.inr ⟨M, hyM, hM1⟩, ?_, M, hyM, by rw [hcand]; exact hCM⟩
      intro q' hq'
      rw [hM] at hq'
      obtain rfl : q' = (M : ℚ) := by
        injection hq' with h
        injection h with h2
        exact h2.symm
      exact ⟨(M : ℚ), hyM, le_refl _⟩

/-- Streaming any list of good points from an invariant state keeps the
invariant, preserves the mode, never lowers `y.max`, and leaves a bound
dominating the candidate of every point pushed. -/
theorem pushFold_yMax (ps : List EPoint) : ∀ s : ScatterState, yMaxInv s →
    (∀ p ∈ ps, goodPt s.showWeighted p) →
    yMaxInv (ps.foldl (fun t r => pushPoint t r (.fin 5)) s) ∧
    (ps.foldl (fun t r => pushPoint t r (.fin 5)) s).showWeighted =
      s.showWeighted ∧
    yLe s.yMax (ps.foldl (fun t r => pushPoint t r (.fin 5)) s).yMax ∧
    ∀ p ∈ ps, ∃ M : ℤ,
      (ps.foldl (fun t r => pushPoint t r (.fin 5)) s).yMax =
        some (.fin (M : ℚ)) ∧
      candOf s.showWeighted p ≤ M := by
  induction ps with
  | nil =>
      intro s hinv _
      exact ⟨hinv, rfl, yLe_refl _, by simp⟩
  | cons p rest ih =>
      intro s hinv hgood
      have hgp := hgood p (List.mem_cons_self p rest)
      have hstep := pushPoint_yMax_step s p hinv hgp
      have hsw := pushPoint_showWeighted s p (.fin 5)
      have hrest : ∀ r ∈ rest,
          goodPt (pushPoint s p (.fin 5)).showWeighted r := by
        intro r hr
        rw [hsw]
        exact hgood r (List.mem_cons_of_mem p hr)
      have hih := ih (pushPoint s p (.fin 5)) hstep.1 hrest
      simp only [List.foldl_cons]
      refine ⟨hih.1, by rw [hih.2.1, hsw], yLe_trans hstep.2.1 hih.2.2.1, ?_⟩
      intro r hr
      rcases List.mem_cons.mp hr with rfl | hr'
      · obtain ⟨C, hC, hcandC⟩ := hstep.2.2
        obtain ⟨t, htEq, hCt⟩ := hih.2.2.1 (C : ℚ) hC
        rcases hih.1 with hnone | ⟨M, hM, _⟩
        · rw [hnone] at htEq
          cases htEq
        · rw [hM] at htEq
          obtain rfl : t = (M : ℚ) := by
            injection htEq with h
            injection h with h2
            exact h2.symm
          exact ⟨M, hM, le_trans hcandC (by exact_mod_cast hCt)⟩
      · obtain ⟨M, hM, hc⟩ := hih.2.2.2 r hr'
        rw [hsw] at hc
        exact ⟨M, hM, hc⟩

/-- C6 amended: while streaming, `y.max` never decreases and ends at an
integer bound at least as large as every candidate `ceil(y + pad)` seen —
provided every pushed point's candidate is at least 1 (the claim's
`y > -pad`, in particular all nonnegative y).  (The restriction is forced:
a candidate of exactly 0 is stored as the falsy value 0, which the unset
check `!yScale.max` then treats as unset, allowing a later decrease — see
the counterexample.) -/
theorem c6_amended_yMax_monotone :
    (∀ (s : ScatterState) (p : EPoint), yMaxInv s → goodPt s.showWeighted p →
        yLe s.yMax (pushPoint s p (.fin 5)).yMax) ∧
    (∀ (s : ScatterState) (ps : List EPoint), s.yMax = none →
        (∀ p ∈ ps, goodPt s.showWeighted p) →
        ∀ p ∈ ps, ∃ M : ℤ,
          (ps.foldl (fun t r => pushPoint t r (.fin 5)) s).yMax =
            some (.fin (M : ℚ)) ∧
          candOf s.showWeighted p ≤ M) := by
  constructor
  · intro s p hinv hg
    exact (pushPoint_yMax_step s p hinv hg).2.1
  · intro s ps h0 hps
    exact (pushFold_yMax ps s (Or.inl h0) hps).2.2.2

/-- Closed witness for C6's amended statement at a one-point stream. -/
theorem c6_amended_yMax_monotone_witness :
    ∃ M : ℤ,
      ([(⟨.fin 0, .fin 10, .fin 0, .fin 0, .fin 0, false⟩ : EPoint)].foldl
          (fun t r => pushPoint t r (.fin 5)) (initScatter 0 1 0)).yMax =
        some (.fin (M : ℚ)) ∧
      candOf (initScatter 0 1 0).showWeighted
        ⟨.fin 0, .fin 10, .fin 0, .fin 0, .fin 0, false⟩ ≤ M := by
  have hgood : ∀ r ∈ [(⟨.fin 0, .fin 10, .fin 0, .fin 0, .fin 0,
      false⟩ : EPoint)], goodPt (initScatter 0 1 0).showWeighted r := by
    intro r hr
    rw [List.mem_singleton] at hr
    subst hr
    exact ⟨rfl, rfl, 10, rfl, by norm_num [round_eq]⟩
  exact c6_amended_yMax_monotone.2 (initScatter 0 1 0)
    [⟨.fin 0, .fin 10, .fin 0, .fin 0, .fin 0, false⟩] rfl hgood
    ⟨.fin 0, .fin 10, .fin 0, .fin 0, .fin 0, false⟩ (List.mem_singleton_self _)

/-- C6 counterexample: in RAW mode, pushing efficiency -5 stores
`y.max = ceil(-5 + 5) = 0`; the unset check `!yScale.max` treats the stored
0 as unset, so pushing efficiency -6 then overwrites `y.max` with -1:
`y.max` decreases, and ends below the largest `ceil(y + pad)` seen (0). -/
theorem c6_counterexample_yMax_decreases :
    (pushPoint (initScatter 0 1 0)
        ⟨.fin 0, .fin (-5), .fin 0, .fin 0, .fin 0, false⟩ (.fin 5)).yMax =
      some (.fin 0) ∧
    (pushPoint (pushPoint (initScatter 0 1 0)
          ⟨.fin 0, .fin (-5), .fin 0, .fin 0, .fin 0, false⟩ (.fin 5))
        ⟨.fin 1, .fin (-6), .fin 0, .fin 0, .fin 0, false⟩ (.fin 5)).yMax =
      some (.fin (-1)) := by
  have h1 : (pushPoint (initScatter 0 1 0)
      ⟨.fin 0, .fin (-5), .fin 0, .fin 0, .fin 0, false⟩ (.fin 5)).yMax =
      some (.fin 0) := by
    rw [pushPoint_yMax_eval (initScatter 0 1 0)
      ⟨.fin 0, .fin (-5), .fin 0, .fin 0, .fin 0, false⟩ rfl rfl]
    norm_num [initScatter, falsyOpt, activeVal, candidate_eval, round_eq]
  have hsw1 : (pushPoint (initScatter 0 1 0)
      ⟨.fin 0, .fin (-5), .fin 0, .fin 0, .fin 0, false⟩
      (.fin 5)).showWeighted = false := pushPoint_showWeighted _ _ _
  refine ⟨h1, ?_⟩
  rw [pushPoint_yMax_eval (pushPoint (initScatter 0 1 0)
      ⟨.fin 0, .fin (-5), .fin 0, .fin 0, .fin 0, false⟩ (.fin 5))
    ⟨.fin 1, .fin (-6), .fin 0, .fin 0, .fin 0, false⟩ rfl rfl, hsw1, h1]
  norm_num [falsyOpt, jsFalsy, activeVal, candidate_eval, round_eq]
